import Mathlib

/-!
Verification of the session chart-ledger, dataset filter and export pipeline
of the Data Visualization Dashboard (src/app.py).

The embedding models:
* the loaded pandas DataFrame `df` as `Table` (ordered named columns with
  dtypes and a list of rows);
* the slider range filter of lines 53-60 (`df[(df[x] >= mn) & (df[x] <= mx)]`,
  applied only when `df[x].dtype in [int, float]`);
* `st.session_state.charts` (lines 19-20, 91) as an append-only `Ledger` of
  `ChartSpec` tuples `(chart_type, x_axis, y_axis, color)`;
* the Generate Chart handler (lines 63-94) with its internal try/except;
* the CSV download (lines 104-111, `df.to_csv(index=False)`);
* the PPT export loop (lines 114-163): one slide per ledger entry, titled
  from the entry, rendered against the *current* `df`, the image embedded at
  Inches(1)/Inches(1) with width 6 and height 4 — except that the Pie branch
  `continue`s before `add_picture`.

Chart rendering itself (seaborn/plotly) is the external collaborator of the
spec's section 4.3; it enters the model as an abstract, possibly failing
function `render : Table → ChartSpec → Except String Img`.
-/

namespace Dashboard

/-- A cell value of the loaded table: numeric (the int and float dtypes both
map to ℚ in the model) or textual. -/
inductive Value where
  | num (q : ℚ)
  | str (s : String)
deriving DecidableEq, Repr

/-- Column dtype, as far as line 53's test `df[x_axis].dtype in [int, float]`
distinguishes it. -/
inductive ColType where
  | numeric
  | text
deriving DecidableEq, Repr

/-- The in-memory DataFrame `df`: named columns in order, their dtypes, and
the rows (each row lists its cells in column order). -/
structure Table where
  header : List String
  ctypes : List ColType
  rows   : List (List Value)
deriving DecidableEq, Repr

/-- Position of a column name in the column list (how `df[field]` selects a
column). -/
def colIdx (t : Table) (field : String) : Nat :=
  t.header.indexOf field

/-- The numeric value of row `r` in column `i`. A numeric-dtype column holds
only `Value.num` cells; `0` is a don't-care default for the other cases. -/
def getNum (r : List Value) (i : Nat) : ℚ :=
  match r[i]? with
  | some (Value.num q) => q
  | _ => 0

/-- Line 53: `df[x_axis].dtype in [int, float]`. -/
def isNumericCol (t : Table) (field : String) : Bool :=
  match t.ctypes[colIdx t field]? with
  | some ColType.numeric => true
  | _ => false

/-- The boolean mask of line 60,
`(df[x_axis] >= min_val) & (df[x_axis] <= max_val)`, applied to one row. -/
def rowInRange (t : Table) (field : String) (mn mx : ℚ) (r : List Value) : Bool :=
  decide (mn ≤ getNum r (colIdx t field)) && decide (getNum r (colIdx t field) ≤ mx)

/-- Line 60: `df = df[(df[x_axis] >= min_val) & (df[x_axis] <= max_val)]`.
The mask keeps exactly the rows inside the closed range, all columns and the
row order untouched. -/
def filter (t : Table) (field : String) (mn mx : ℚ) : Table :=
  { t with rows := t.rows.filter (rowInRange t field mn mx) }

/-- Lines 53-60 as a whole: the slider filter runs only when the selected
x column has numeric dtype; otherwise `df` passes through unchanged. -/
def filterStep (t : Table) (field : String) (mn mx : ℚ) : Table :=
  if isNumericCol t field then filter t field mn mx else t

/-- The six entries of the chart-type selectbox (line 35-38). -/
inductive ChartKind where
  | bar
  | line
  | scatter
  | histogram
  | box
  | pie
deriving DecidableEq, Repr

/-- The label shown in the selectbox and stored in the session tuple. -/
def kindLabel : ChartKind → String
  | ChartKind.bar => "Bar Chart"
  | ChartKind.line => "Line Chart"
  | ChartKind.scatter => "Scatter Plot"
  | ChartKind.histogram => "Histogram"
  | ChartKind.box => "Box Plot"
  | ChartKind.pie => "Pie Chart"

/-- One stored tuple `(chart_type, x_axis, y_axis, color)` (line 91). -/
structure ChartSpec where
  kind : ChartKind
  x_axis : String
  y_axis : String
  color : String
deriving DecidableEq, Repr

/-- `st.session_state.charts`: a Python list of chart tuples (lines 19-20). -/
abbrev Ledger := List ChartSpec

/-- The initial empty chart list (line 20). -/
def Ledger.empty : Ledger := []

/-- `st.session_state.charts.append(...)` (line 91): adds one entry at the
end. -/
def Ledger.append (l : Ledger) (s : ChartSpec) : Ledger :=
  l ++ [s]

/-- Reading the ledger back in insertion order (lines 99, 118: iteration over
`st.session_state.charts`). -/
def Ledger.all (l : Ledger) : List ChartSpec :=
  l

/-- Helper: folding `Ledger.append` over a list of specs appends the whole
list at the end. -/
theorem foldl_ledger_append (specs : List ChartSpec) (l : Ledger) :
    specs.foldl Ledger.append l = l ++ specs := by
  induction specs generalizing l with
  | nil => simp
  | cons s rest ih => simp [Ledger.append, ih]

/-- Claim C4: the ledger is strictly order-preserving and append-only — for
every sequence of specs appended during a session, starting from the empty
list, reading the ledger back returns exactly that sequence, in order and
with multiplicity (repeated identical specs give repeated entries); no
operation removes, reorders or deduplicates. -/
theorem ledger_append_only (specs : List ChartSpec) :
    Ledger.all (specs.foldl Ledger.append Ledger.empty) = specs := by
  simp [Ledger.all, Ledger.empty, foldl_ledger_append]

/-- Claim C3: on a numeric field with `mn ≤ mx`, `filter` keeps the column
list and dtypes unchanged, its output rows form a sublist of the input rows
(row order unchanged), a row with the given multiplicity belongs to the output
exactly when it belongs to the input and its value in the field lies in the
closed range `[mn, mx]`. -/
theorem filter_range_exact (t : Table) (field : String) (mn mx : ℚ)
    (hnum : isNumericCol t field = true) (hle : mn ≤ mx) :
    (filter t field mn mx).header = t.header ∧
    (filter t field mn mx).ctypes = t.ctypes ∧
    (filter t field mn mx).rows.Sublist t.rows ∧
    (∀ r, r ∈ (filter t field mn mx).rows ↔
      r ∈ t.rows ∧ mn ≤ getNum r (colIdx t field) ∧ getNum r (colIdx t field) ≤ mx) ∧
    (∀ r, mn ≤ getNum r (colIdx t field) → getNum r (colIdx t field) ≤ mx →
      (filter t field mn mx).rows.count r = t.rows.count r) := by
  refine ⟨rfl, rfl, List.filter_sublist _, ?_, ?_⟩
  · intro r
    simp [filter, List.mem_filter, rowInRange, and_assoc]
  · intro r h1 h2
    simp only [filter]
    rw [List.count_filter]
    simp [rowInRange, h1, h2]

/-- Witness for C3 at a concrete table: two of three rows of the numeric
column "a" lie in the range [0, 10]. -/
theorem filter_range_exact_witness :
    isNumericCol ⟨["a", "b"], [ColType.numeric, ColType.text],
        [[Value.num 1, Value.str "u"], [Value.num 5, Value.str "v"],
         [Value.num 11, Value.str "w"]]⟩ "a" = true ∧
    (0 : ℚ) ≤ 10 ∧
    ((filter ⟨["a", "b"], [ColType.numeric, ColType.text],
        [[Value.num 1, Value.str "u"], [Value.num 5, Value.str "v"],
         [Value.num 11, Value.str "w"]]⟩ "a" 0 10).header = ["a", "b"] ∧
      (filter ⟨["a", "b"], [ColType.numeric, ColType.text],
        [[Value.num 1, Value.str "u"], [Value.num 5, Value.str "v"],
         [Value.num 11, Value.str "w"]]⟩ "a" 0 10).ctypes
          = [ColType.numeric, ColType.text] ∧
      (filter ⟨["a", "b"], [ColType.numeric, ColType.text],
        [[Value.num 1, Value.str "u"], [Value.num 5, Value.str "v"],
         [Value.num 11, Value.str "w"]]⟩ "a" 0 10).rows.Sublist
          [[Value.num 1, Value.str "u"], [Value.num 5, Value.str "v"],
           [Value.num 11, Value.str "w"]] ∧
      (∀ r, r ∈ (filter ⟨["a", "b"], [ColType.numeric, ColType.text],
        [[Value.num 1, Value.str "u"], [Value.num 5, Value.str "v"],
         [Value.num 11, Value.str "w"]]⟩ "a" 0 10).rows ↔
        r ∈ [[Value.num 1, Value.str "u"], [Value.num 5, Value.str "v"],
             [Value.num 11, Value.str "w"]] ∧
          0 ≤ getNum r (colIdx ⟨["a", "b"], [ColType.numeric, ColType.text],
            [[Value.num 1, Value.str "u"], [Value.num 5, Value.str "v"],
             [Value.num 11, Value.str "w"]]⟩ "a") ∧
          getNum r (colIdx ⟨["a", "b"], [ColType.numeric, ColType.text],
            [[Value.num 1, Value.str "u"], [Value.num 5, Value.str "v"],
             [Value.num 11, Value.str "w"]]⟩ "a") ≤ 10) ∧
      (∀ r, 0 ≤ getNum r (colIdx ⟨["a", "b"], [ColType.numeric, ColType.text],
            [[Value.num 1, Value.str "u"], [Value.num 5, Value.str "v"],
             [Value.num 11, Value.str "w"]]⟩ "a") →
          getNum r (colIdx ⟨["a", "b"], [ColType.numeric, ColType.text],
            [[Value.num 1, Value.str "u"], [Value.num 5, Value.str "v"],
             [Value.num 11, Value.str "w"]]⟩ "a") ≤ 10 →
          (filter ⟨["a", "b"], [ColType.numeric, ColType.text],
            [[Value.num 1, Value.str "u"], [Value.num 5, Value.str "v"],
             [Value.num 11, Value.str "w"]]⟩ "a" 0 10).rows.count r =
            [[Value.num 1, Value.str "u"], [Value.num 5, Value.str "v"],
             [Value.num 11, Value.str "w"]].count r)) :=
  ⟨rfl, by norm_num,
    filter_range_exact ⟨["a", "b"], [ColType.numeric, ColType.text],
      [[Value.num 1, Value.str "u"], [Value.num 5, Value.str "v"],
       [Value.num 11, Value.str "w"]]⟩ "a" 0 10 rfl (by norm_num)⟩

/-- Claim C8: when the selected field's column is not numeric, the filter
step of lines 53-60 is skipped entirely and the table passes through as the
identity. -/
theorem filter_skipped_on_non_numeric (t : Table) (field : String) (mn mx : ℚ)
    (h : isNumericCol t field = false) :
    filterStep t field mn mx = t := by
  simp [filterStep, h]

/-- Witness for C8: column "b" has text dtype, so the filter step returns the
table unchanged. -/
theorem filter_skipped_on_non_numeric_witness :
    isNumericCol ⟨["a", "b"], [ColType.numeric, ColType.text],
        [[Value.num 1, Value.str "u"]]⟩ "b" = false ∧
    filterStep ⟨["a", "b"], [ColType.numeric, ColType.text],
        [[Value.num 1, Value.str "u"]]⟩ "b" 0 10 =
      ⟨["a", "b"], [ColType.numeric, ColType.text],
        [[Value.num 1, Value.str "u"]]⟩ :=
  ⟨rfl, filter_skipped_on_non_numeric _ "b" 0 10 rfl⟩

/-- Claim C10: the range filter of line 60 is idempotent — applying the same
mask to its own result changes nothing, because every surviving row already
satisfies the range predicate. -/
theorem filter_idempotent (t : Table) (field : String) (mn mx : ℚ)
    (hnum : isNumericCol t field = true) (hle : mn ≤ mx) :
    filter (filter t field mn mx) field mn mx = filter t field mn mx := by
  show Table.mk _ _ _ = Table.mk _ _ _
  simp only [filter]
  refine congrArg (Table.mk t.header t.ctypes) ?_
  exact List.filter_eq_self.mpr fun r hr => (List.mem_filter.mp hr).2

/-- Witness for C10 at the concrete table of the C3 witness. -/
theorem filter_idempotent_witness :
    isNumericCol ⟨["a", "b"], [ColType.numeric, ColType.text],
        [[Value.num 1, Value.str "u"], [Value.num 5, Value.str "v"],
         [Value.num 11, Value.str "w"]]⟩ "a" = true ∧
    (0 : ℚ) ≤ 10 ∧
    filter (filter ⟨["a", "b"], [ColType.numeric, ColType.text],
        [[Value.num 1, Value.str "u"], [Value.num 5, Value.str "v"],
         [Value.num 11, Value.str "w"]]⟩ "a" 0 10) "a" 0 10 =
      filter ⟨["a", "b"], [ColType.numeric, ColType.text],
        [[Value.num 1, Value.str "u"], [Value.num 5, Value.str "v"],
         [Value.num 11, Value.str "w"]]⟩ "a" 0 10 :=
  ⟨rfl, by norm_num,
    filter_idempotent ⟨["a", "b"], [ColType.numeric, ColType.text],
      [[Value.num 1, Value.str "u"], [Value.num 5, Value.str "v"],
       [Value.num 11, Value.str "w"]]⟩ "a" 0 10 rfl (by norm_num)⟩

/-- The Generate Chart handler (lines 63-94). The try block renders the chart
for the current filtered `df` and only then appends the tuple to
`st.session_state.charts`; an exception inside the block reaches the except
arm, which shows `Error generating visualization: ...` and performs no
append. `render` abstracts the seaborn/plotly calls of lines 66-88. -/
def generateChart {Img : Type} (render : Table → ChartSpec → Except String Img)
    (l : Ledger) (t : Table) (s : ChartSpec) : Ledger × Option String :=
  match render t s with
  | Except.ok _ => (Ledger.append l s, none)
  | Except.error e => (l, some ("Error generating visualization: " ++ e))

/-- A picture placed on a slide: the image plus the fixed geometry of
lines 149-150 (`left = top = Inches(1)`, `width=Inches(6)`,
`height=Inches(4)`; the model keeps the raw inch counts). -/
structure Pic (Img : Type) where
  img : Img
  left : Nat
  top : Nat
  width : Nat
  height : Nat
deriving DecidableEq, Repr

/-- One slide of the exported deck: the title set at line 124, and the
picture added at line 150 when that line is reached. -/
structure Slide (Img : Type) where
  title : String
  pic : Option (Pic Img)
deriving DecidableEq, Repr

/-- The slide title of line 124. -/
def slideTitle (s : ChartSpec) : String :=
  kindLabel s.kind ++ " - X: " ++ s.x_axis ++ ", Y: " ++ s.y_axis

/-- The slide built for one ledger entry in the export loop (lines 121-150).
Non-Pie kinds reach `add_picture` with the fixed geometry; the Pie branch
executes `continue` at line 142 right after writing the image file, so its
slide keeps the title but never receives the picture. -/
def slideOf {Img : Type} (s : ChartSpec) (img : Img) : Slide Img :=
  match s.kind with
  | ChartKind.pie => { title := slideTitle s, pic := none }
  | _ => { title := slideTitle s,
           pic := some { img := img, left := 1, top := 1, width := 6, height := 4 } }

/-- The exported deck: the slides of `prs` in order, and the image files
`chart_0.png, chart_1.png, ...` written during the loop (line 140 for Pie,
line 145 otherwise), in the same order. -/
structure SlideDoc (Img : Type) where
  slides : List (Slide Img)
  files : List Img
deriving DecidableEq, Repr

/-- The body of the export loop (lines 118-150), one iteration per ledger
entry, every iteration rendering against the `t` passed in. A raised
rendering exception aborts the loop before `prs.save`, so an error discards
all slides (fail-fast, no document). -/
def exportLoop {Img : Type} (render : Table → ChartSpec → Except String Img)
    (t : Table) : List ChartSpec → Except String (List (Slide Img) × List Img)
  | [] => Except.ok ([], [])
  | s :: rest =>
    match render t s with
    | Except.error e => Except.error e
    | Except.ok img =>
      match exportLoop render t rest with
      | Except.error e => Except.error e
      | Except.ok (ss, fs) => Except.ok (slideOf s img :: ss, img :: fs)

/-- The Download Dashboard as PPT handler (lines 114-163): replays the whole
ledger through the export loop against the table current at call time and
assembles the deck. -/
def export_slides {Img : Type} (render : Table → ChartSpec → Except String Img)
    (l : Ledger) (t : Table) : Except String (SlideDoc Img) :=
  match exportLoop render t (Ledger.all l) with
  | Except.error e => Except.error e
  | Except.ok (ss, fs) => Except.ok { slides := ss, files := fs }

/-- The textual form of one cell, as `to_csv` renders it. -/
def valueText : Value → String
  | Value.num q => toString q
  | Value.str s => s

/-- One CSV data line: the row's cells in column order, comma separated, with
no index prefix (`index=False`). -/
def rowLine (r : List Value) : String :=
  String.intercalate "," (r.map valueText)

/-- The CSV header line: the column names in the table's own order. -/
def headerLine (t : Table) : String :=
  String.intercalate "," t.header

/-- Line 105, `df.to_csv(index=False)`: the header line then one line per
row, each terminated by a newline, emitted row by row. -/
def export_table (t : Table) : String :=
  t.rows.foldl (fun acc r => acc ++ (rowLine r ++ "\n")) (headerLine t ++ "\n")

/-- Spelled from the spec's words (section 4.4, `export_table`): "delimited
text with a header row of column names; one row per Table row; deterministic
column order = Table's column order; values rendered in their natural textual
form; no index column" — the list of lines, header first, then the rows in
order, concatenated with one newline after each line. -/
def export_table_spec (t : Table) : String :=
  (headerLine t :: t.rows.map rowLine).foldl (fun acc ln => acc ++ (ln ++ "\n")) ""

/-- The per-session state: the current (possibly filtered) `df` and
`st.session_state.charts`. -/
structure Session where
  df : Table
  charts : Ledger
deriving DecidableEq, Repr

/-- A downloadable artifact: the CSV bytes of lines 104-111 or the deck of
lines 114-163. -/
inductive Output (Img : Type) where
  | csv (data : String)
  | ppt (doc : SlideDoc Img)
deriving DecidableEq, Repr

/-- The user actions that reach the core: moving the range slider, pressing
Generate Chart, downloading the CSV, pressing Download Dashboard as PPT. -/
inductive UserAction where
  | refilter (field : String) (mn mx : ℚ)
  | generate (s : ChartSpec)
  | exportCSV
  | exportPPT
deriving DecidableEq, Repr

/-- The outcome of one handled action: the session state afterwards, the
error message shown if the action failed, and the artifact offered if it
produced one. -/
structure StepResult (Img : Type) where
  sess : Session
  errMsg : Option String
  artifact : Option (Output Img)
deriving DecidableEq, Repr

/-- One user action handled to completion. The Generate handler catches its
exception itself (lines 93-94); the PPT handler has no try/except, so a
rendering exception propagates fail-fast to the enclosing script-run
boundary, where the framework reports it as an error message, offers no
document, and leaves the session state standing. The CSV path and the slider
refilter have no failing step in the model. -/
def step {Img : Type} (render : Table → ChartSpec → Except String Img) :
    UserAction → Session → StepResult Img
  | UserAction.refilter field mn mx, s =>
    { sess := { s with df := filterStep s.df field mn mx }, errMsg := none,
      artifact := none }
  | UserAction.generate sp, s =>
    let res := generateChart render s.charts s.df sp
    { sess := { s with charts := res.1 }, errMsg := res.2, artifact := none }
  | UserAction.exportCSV, s =>
    { sess := s, errMsg := none, artifact := some (Output.csv (export_table s.df)) }
  | UserAction.exportPPT, s =>
    match export_slides render s.charts s.df with
    | Except.ok doc => { sess := s, errMsg := none, artifact := some (Output.ppt doc) }
    | Except.error e => { sess := s, errMsg := some e, artifact := none }

/-- Helper: against a renderer that always succeeds, the export loop renders
each entry of the list against the table given at call time and builds one
slide per entry, in order. -/
theorem exportLoop_total {Img : Type} (r : Table → ChartSpec → Img) (t : Table)
    (l : List ChartSpec) :
    exportLoop (fun tb sp => Except.ok (r tb sp)) t l =
      Except.ok (l.map (fun sp => slideOf sp (r t sp)), l.map (fun sp => r t sp)) := by
  induction l with
  | nil => rfl
  | cons s rest ih => simp [exportLoop, ih]

/-- Claim C1: `export_slides` renders every ledger entry against the table
passed at call time. With the same unchanged ledger, exporting against the
table `t` bases every image file on `t`, and a later export against the
refiltered table `t'` bases every image file on `t'` — entry by entry, via
the renderer applied to the call-time table. -/
theorem export_renders_against_call_time_table {Img : Type}
    (r : Table → ChartSpec → Img) (l : Ledger) (t t' : Table) :
    (export_slides (fun tb sp => Except.ok (r tb sp)) l t).map SlideDoc.files =
        Except.ok (l.map (fun sp => r t sp)) ∧
      (export_slides (fun tb sp => Except.ok (r tb sp)) l t').map SlideDoc.files =
        Except.ok (l.map (fun sp => r t' sp)) := by
  constructor <;> simp [export_slides, Ledger.all, exportLoop_total, Except.map]

/-- Claim C2, evaluated at the failing input: exporting a one-entry ledger
holding a Pie Chart spec produces a deck whose single slide has the right
title but no picture, even though the rendered image file was produced —
line 142's `continue` skips `add_picture`, contradicting the claim that each
slide holds its entry's image at a fixed position and size. -/
theorem export_pie_slide_has_no_picture :
    export_slides (fun _ _ => (Except.ok 0 : Except String Nat))
        [⟨ChartKind.pie, "a", "b", "#1f77b4"⟩]
        ⟨["a", "b"], [ColType.numeric, ColType.text], [[Value.num 1, Value.str "u"]]⟩ =
      Except.ok { slides := [{ title := "Pie Chart - X: a, Y: b", pic := none }],
                  files := [0] } := by
  rfl

/-- Counterexample to claim C5 as stated: with a renderer that raises, the
Generate Chart handler leaves the ledger empty — the failing spec is not
recorded, because line 91's append sits inside the try block after the
rendering calls. -/
theorem generate_failure_does_not_record :
    (generateChart (fun _ _ => (Except.error "boom" : Except String Nat))
        Ledger.empty
        ⟨["a", "b"], [ColType.numeric, ColType.text], [[Value.num 1, Value.str "u"]]⟩
        ⟨ChartKind.bar, "a", "b", "#1f77b4"⟩).1 = Ledger.empty ∧
    ⟨ChartKind.bar, "a", "b", "#1f77b4"⟩ ∉
      (generateChart (fun _ _ => (Except.error "boom" : Except String Nat))
        Ledger.empty
        ⟨["a", "b"], [ColType.numeric, ColType.text], [[Value.num 1, Value.str "u"]]⟩
        ⟨ChartKind.bar, "a", "b", "#1f77b4"⟩).1 := by
  constructor
  · rfl
  · simp [generateChart, Ledger.empty]

/-- Claim C5 as amended: if the renderer fails at generation time, the
handler reports `Error generating visualization: ...` to the user and leaves
the ledger exactly as it was — the failing spec is not appended, and the
entries recorded earlier stay intact for a later export. -/
theorem generate_failure_reports_and_keeps_ledger {Img : Type}
    (render : Table → ChartSpec → Except String Img)
    (l : Ledger) (t : Table) (s : ChartSpec) (e : String)
    (h : render t s = Except.error e) :
    generateChart render l t s = (l, some ("Error generating visualization: " ++ e)) := by
  simp [generateChart, h]

/-- Witness for the amended C5 at a concrete failing renderer. -/
theorem generate_failure_reports_and_keeps_ledger_witness :
    (fun (_ : Table) (_ : ChartSpec) => (Except.error "boom" : Except String Nat))
        ⟨["a", "b"], [ColType.numeric, ColType.text], [[Value.num 1, Value.str "u"]]⟩
        ⟨ChartKind.line, "a", "b", "#1f77b4"⟩ = Except.error "boom" ∧
    generateChart (fun _ _ => (Except.error "boom" : Except String Nat))
        [⟨ChartKind.bar, "a", "b", "#1f77b4"⟩]
        ⟨["a", "b"], [ColType.numeric, ColType.text], [[Value.num 1, Value.str "u"]]⟩
        ⟨ChartKind.line, "a", "b", "#1f77b4"⟩ =
      ([⟨ChartKind.bar, "a", "b", "#1f77b4"⟩],
        some ("Error generating visualization: " ++ "boom")) :=
  ⟨rfl, generate_failure_reports_and_keeps_ledger _ _ _ _ "boom" rfl⟩

/-- Claim C6: `export_table` produces exactly the delimited text the spec
describes — the header line of column names first, then one line per row in
table order, values in their textual form, no index column. -/
theorem export_table_matches_spec (t : Table) :
    export_table t = export_table_spec t := by
  show t.rows.foldl (fun acc r => acc ++ (rowLine r ++ "\n")) (headerLine t ++ "\n") =
    (t.rows.map rowLine).foldl (fun acc ln => acc ++ (ln ++ "\n"))
      ("" ++ (headerLine t ++ "\n"))
  rw [List.foldl_map]
  have h0 : ("" : String) ++ (headerLine t ++ "\n") = headerLine t ++ "\n" := by
    apply String.ext
    simp
  rw [h0]

/-- Claim C7: the CSV download is a pure read of the current table — it
leaves the session untouched, so downloading twice with no intervening
mutation offers byte-identical content both times. -/
theorem export_table_pure {Img : Type} (render : Table → ChartSpec → Except String Img)
    (s : Session) :
    (step render UserAction.exportCSV s).sess = s ∧
      (step render UserAction.exportCSV
          ((step render UserAction.exportCSV s).sess)).artifact =
        (step render UserAction.exportCSV s).artifact := by
  exact ⟨rfl, rfl⟩

/-- Claim C9: whenever handling an action ends in an error message, the
session state is exactly what it was before the action — the ledger and the
table survive unchanged, and no partial artifact is offered. The error is
carried as a user-visible message rather than a crash: the Generate handler
catches it at lines 93-94, and an export failure propagates fail-fast to the
script-run boundary, which reports it and preserves the session. -/
theorem errors_leave_session_intact {Img : Type}
    (render : Table → ChartSpec → Except String Img)
    (a : UserAction) (s : Session)
    (h : (step render a s).errMsg.isSome = true) :
    (step render a s).sess = s ∧ (step render a s).artifact = none := by
  cases a with
  | refilter field mn mx => simp [step] at h
  | generate sp =>
    cases hr : render s.df sp with
    | ok img => simp [step, generateChart, hr] at h
    | error e =>
      constructor
      · show Session.mk s.df ((generateChart render s.charts s.df sp).1) = s
        simp [generateChart, hr]
      · rfl
  | exportCSV => simp [step] at h
  | exportPPT =>
    cases he : export_slides render s.charts s.df with
    | ok doc => simp [step, he] at h
    | error e => simp [step, he]

/-- Witness for C9: a failing renderer during a PPT export of a one-entry
ledger yields an error message and leaves the session intact. -/
theorem errors_leave_session_intact_witness :
    ((step (fun _ _ => (Except.error "boom" : Except String Nat))
        UserAction.exportPPT
        ⟨⟨["a", "b"], [ColType.numeric, ColType.text], [[Value.num 1, Value.str "u"]]⟩,
          [⟨ChartKind.bar, "a", "b", "#1f77b4"⟩]⟩).errMsg.isSome = true) ∧
    ((step (fun _ _ => (Except.error "boom" : Except String Nat))
        UserAction.exportPPT
        ⟨⟨["a", "b"], [ColType.numeric, ColType.text], [[Value.num 1, Value.str "u"]]⟩,
          [⟨ChartKind.bar, "a", "b", "#1f77b4"⟩]⟩).sess =
      ⟨⟨["a", "b"], [ColType.numeric, ColType.text], [[Value.num 1, Value.str "u"]]⟩,
        [⟨ChartKind.bar, "a", "b", "#1f77b4"⟩]⟩ ∧
      (step (fun _ _ => (Except.error "boom" : Except String Nat))
        UserAction.exportPPT
        ⟨⟨["a", "b"], [ColType.numeric, ColType.text], [[Value.num 1, Value.str "u"]]⟩,
          [⟨ChartKind.bar, "a", "b", "#1f77b4"⟩]⟩).artifact = none) :=
  ⟨rfl, errors_leave_session_intact _ UserAction.exportPPT _ rfl⟩

end Dashboard
